import Mathlib

/-!
Verification of the Vend payment-verification core against its code.

The definitions below are a shallow embedding of the JavaScript sources:
  * `src/packages/x402-express/src/verifiers/usdc.js` (`createUSDCVerifier`),
  * `src/packages/x402-onchain-verification/src/middleware.js`
    (`createPaymentInstructions`, `paymentRequired`),
  * the demo verifier (`createDemoVerifier`),
  * `src/src/middleware/payment.js` (`verifyPayment`).

JavaScript strings are modelled as `List Char`; JS numbers are modelled as
exact rationals (`ℚ`); fallible operations (`BigInt(...)`, indexing past the
end of an array followed by a method call) are modelled with `Option`, the
`none` case standing for a thrown exception that the verifier's surrounding
`try`/`catch` swallows.
-/

/-- JavaScript strings, modelled as their character sequence. -/
abbrev Str := List Char

/-- Embeds a Lean string literal as a JS string value. -/
def jsStr (s : String) : Str := s.toList

/-- JS `String.prototype.toLowerCase` restricted to the ASCII range that hex
addresses use. -/
def jsToLower (s : Str) : Str := s.map Char.toLower

/-- JS truthiness of a possibly-absent string: `undefined` and `""` are falsy. -/
def jsTruthyS (s : Option Str) : Bool :=
  match s with
  | none => false
  | some s => !s.isEmpty

/-- JS truthiness of a possibly-absent number: `undefined` and `0` are falsy. -/
def jsTruthyNat (n : Option Nat) : Bool :=
  match n with
  | none => false
  | some n => n != 0

/-- The hex character for a digit value below 16, lowercase (as chain RPC
providers render topics and data). -/
def hexDigitChar (n : Nat) : Char :=
  if n < 10 then Char.ofNat (48 + n) else Char.ofNat (87 + n)

/-- Value of a hex character; `none` for a non-hex character. -/
def hexDigitVal? (c : Char) : Option Nat :=
  if '0' ≤ c ∧ c ≤ '9' then some (c.toNat - 48)
  else if 'a' ≤ c ∧ c ≤ 'f' then some (c.toNat - 87)
  else if 'A' ≤ c ∧ c ≤ 'F' then some (c.toNat - 55)
  else none

/-- Value of a decimal digit character; `none` otherwise. -/
def decDigitVal? (c : Char) : Option Nat :=
  if '0' ≤ c ∧ c ≤ '9' then some (c.toNat - 48) else none

/-- One step of parsing a hex digit string, propagating failure. -/
def hexStep (acc : Option Nat) (c : Char) : Option Nat :=
  acc.bind fun a => (hexDigitVal? c).map fun v => 16 * a + v

/-- One step of parsing a decimal digit string, propagating failure. -/
def decStep (acc : Option Nat) (c : Char) : Option Nat :=
  acc.bind fun a => (decDigitVal? c).map fun v => 10 * a + v

/-- Parses a string of hex digits as a big-endian natural number; `none` as
soon as a non-hex character appears. -/
def parseHexDigits (s : Str) : Option Nat := s.foldl hexStep (some 0)

/-- Parses a string of decimal digits; `none` on a non-digit. -/
def parseDecDigits (s : Str) : Option Nat := s.foldl decStep (some 0)

/-- JS `BigInt(string)` on the string forms this code path meets: a
`0x`/`0X`-prefixed hex literal or a plain decimal digit string ("" parses
as 0). `none` models the `SyntaxError` that `BigInt` throws on anything
else (the caller catches it). Signs, whitespace and `0b`/`0o` prefixes do
not occur in receipt data and are not modelled. -/
def jsBigInt (s : Str) : Option Nat :=
  if s.take 2 = jsStr "0x" ∨ s.take 2 = jsStr "0X" then
    if s.drop 2 = [] then none else parseHexDigits (s.drop 2)
  else
    parseDecDigits s

/-- Renders a byte sequence as lowercase hex, two characters per byte. -/
def hexOfBytes : List Nat → Str
  | [] => []
  | b :: bs => hexDigitChar (b / 16) :: hexDigitChar (b % 16) :: hexOfBytes bs

/-- A byte sequence read as a big-endian unsigned integer. -/
def beBytesToNat (bs : List Nat) : Nat := bs.foldl (fun a b => 256 * a + b) 0

/-- ERC20 `Transfer(address,address,uint256)` event signature hash
(`TRANSFER_EVENT_SIGNATURE` in usdc.js). -/
def TRANSFER_EVENT_SIGNATURE : Str :=
  jsStr "0xddf252ad1be2c89b69c2b068fc378daa952ba7f163c4a11628f55a4df523b3ef"

/-- One event log of a transaction receipt: emitting contract address,
topic list, data payload. -/
structure Log where
  address : Str
  topics : List Str
  data : Str
deriving DecidableEq

/-- A transaction receipt: execution status (1 = success) and ordered logs. -/
structure Receipt where
  status : Nat
  logs : List Log
deriving DecidableEq

/-- Result of `alchemy.core.getTransactionReceipt`: a receipt, `null`
(modelled `ok none`), or a thrown transport/RPC error (`err`). -/
inductive ChainResult where
  | ok : Option Receipt → ChainResult
  | err : Str → ChainResult
deriving DecidableEq

/-- The return site taken by the verifier closure of `createUSDCVerifier`
(usdc.js lines 113–213): each constructor corresponds to one `return`
statement and its log message. -/
inductive VerifyOutcome where
  | notFound        -- "Transaction not found", line 129
  | txFailed        -- "Transaction failed", line 138
  | noTransfer      -- "No USDC transfer found in transaction", line 153
  | wrongRecipient  -- "Payment sent to wrong address", line 187
  | insufficient    -- "Payment amount insufficient", line 196
  | success         -- line 205
  | errorCaught     -- catch-all, "Error verifying USDC payment", line 211
deriving DecidableEq

/-- usdc.js line 142: `receipt.logs.find(...)` predicate — the log is from
the USDC contract (case-insensitive) and its first topic is the Transfer
signature. -/
def qualifiesTransferLog (contractAddress : Str) (l : Log) : Bool :=
  jsToLower l.address == jsToLower contractAddress &&
    l.topics.head? == some TRANSFER_EVENT_SIGNATURE

/-- usdc.js lines 142–146: first log matching `qualifiesTransferLog`. -/
def findTransferLog (contractAddress : Str) (logs : List Log) : Option Log :=
  logs.find? (qualifiesTransferLog contractAddress)

/-- usdc.js line 161: `'0x' + transferLog.topics[2].slice(26)`. -/
def decodeToAddress (topic2 : Str) : Str := jsStr "0x" ++ topic2.drop 26

/-- usdc.js line 166: `Number(amountInSmallestUnit) / 1e6` (6-decimal USDC)
as the exact quotient — the spec-level decoded human amount. The engine
actually computes this in binary64 doubles; `amountInUSDCFl` below is that
faithful version, and the two differ whenever `n / 10^6` is not exactly
representable. -/
def amountInUSDC (n : Nat) : ℚ := (n : ℚ) / 1000000

/-- usdc.js line 79: default of the `tolerance` option, `0.000001`, read as
the exact decimal 1/1000000. At runtime the literal denotes the nearest
double, `usdcToleranceFl` below, which is slightly smaller. -/
def usdcDefaultTolerance : ℚ := 1 / 1000000

/-- The verifier closure returned by `createUSDCVerifier` (usdc.js lines
113–213), as the return site it reaches. `contractAddress` and `tolerance`
are the construction-time options; `recipient` comes from the middleware
context; `expectedAmountNum` is the `parseFloat(expectedAmount)` value;
`chain` is what the receipt lookup did. `topics[2]` being absent (the
`undefined.slice` TypeError) and a malformed `data` (the `BigInt`
SyntaxError) land in the `try`/`catch`, hence `errorCaught`. The amount
comparison here is the exact-rational idealization of line 190; the JS
engine evaluates it in binary64 doubles — `usdcVerifyOutcomeFl` below is
that faithful variant, and the two can disagree within a rounding error of
the threshold. Claims that never reach the comparison (transport errors,
missing logs, the 402/500 routing) are unaffected by the difference. -/
def usdcVerifyOutcome (contractAddress : Str) (tolerance : ℚ) (recipient : Str)
    (expectedAmountNum : ℚ) (chain : ChainResult) : VerifyOutcome :=
  match chain with
  | ChainResult.err _ => VerifyOutcome.errorCaught
  | ChainResult.ok none => VerifyOutcome.notFound
  | ChainResult.ok (some receipt) =>
    if receipt.status ≠ 1 then VerifyOutcome.txFailed
    else
      match findTransferLog contractAddress receipt.logs with
      | none => VerifyOutcome.noTransfer
      | some transferLog =>
        match transferLog.topics[2]? with
        | none => VerifyOutcome.errorCaught
        | some topic2 =>
          match jsBigInt transferLog.data with
          | none => VerifyOutcome.errorCaught
          | some n =>
            if jsToLower (decodeToAddress topic2) ≠ jsToLower recipient then
              VerifyOutcome.wrongRecipient
            else if amountInUSDC n < expectedAmountNum - tolerance then
              VerifyOutcome.insufficient
            else VerifyOutcome.success

/-- The boolean the verifier closure returns: `true` exactly on the success
return site, `false` at every other `return` (including the `catch`). -/
def usdcVerify (contractAddress : Str) (tolerance : ℚ) (recipient : Str)
    (expectedAmountNum : ℚ) (chain : ChainResult) : Bool :=
  match usdcVerifyOutcome contractAddress tolerance recipient expectedAmountNum chain with
  | VerifyOutcome.success => true
  | _ => false

/-- The `instructions` block of an x402 payment-required body
(middleware.js lines 69–76). -/
structure HumanInstructions where
  message : Str
  steps : List Str
deriving DecidableEq

/-- The `payment` block (middleware.js lines 40–44 and 52–58); `network` and
`chainId` are present only when the option was truthy. -/
structure PaymentBlock where
  recipient : Str
  amount : Str
  currency : Str
  network : Option Str
  chainId : Option Nat
deriving DecidableEq

/-- The `resource` block (middleware.js lines 45–49). -/
structure ResourceBlock where
  endpoint : Str
  method : Str
  description : Str
deriving DecidableEq

/-- The optional `facilitator` block (middleware.js lines 61–66). -/
structure FacilitatorBlock where
  url : Str
  verification : Str
deriving DecidableEq

/-- The x402 payment-instructions object built by `createPaymentInstructions`
(middleware.js lines 23–79). -/
structure PaymentInstructions where
  protocol : Str
  version : Str
  payment : PaymentBlock
  resource : ResourceBlock
  facilitator : Option FacilitatorBlock
  instructions : HumanInstructions
deriving DecidableEq

/-- The destructured options of `createPaymentInstructions` (middleware.js
lines 24–35), with the source's defaults for `method` and `description`. -/
structure InstrOptions where
  endpoint : Str
  price : Str
  currency : Str
  recipient : Str
  network : Option Str := none
  chainId : Option Nat := none
  method : Str := jsStr "GET"
  description : Str := jsStr "Protected resource"
  facilitatorUrl : Option Str := none
  customInstructions : Option HumanInstructions := none

/-- `createPaymentInstructions` (middleware.js lines 23–79): builds the
instructions object; `network`, `chainId` and `facilitator` are added only
when truthy, and `instructions` falls back to the generated steps when no
`customInstructions` object was given (`customInstructions || {...}`). -/
def createPaymentInstructions (o : InstrOptions) : PaymentInstructions :=
  { protocol := jsStr "x402"
    version := jsStr "1.0"
    payment :=
      { recipient := o.recipient
        amount := o.price
        currency := o.currency
        network := if jsTruthyS o.network then o.network else none
        chainId := if jsTruthyNat o.chainId then o.chainId else none }
    resource :=
      { endpoint := o.endpoint
        method := o.method
        description := o.description }
    facilitator :=
      if jsTruthyS o.facilitatorUrl then
        some { url := o.facilitatorUrl.getD [], verification := jsStr "auto" }
      else none
    instructions :=
      match o.customInstructions with
      | some ci => ci
      | none =>
        { message := jsStr "Pay " ++ o.price ++ jsStr " " ++ o.currency ++
            jsStr " to access this resource"
          steps :=
            [jsStr "1. Send " ++ o.price ++ jsStr " " ++ o.currency ++
               jsStr " payment to " ++ o.recipient,
             jsStr "2. Include payment proof in X-Payment-Hash header",
             jsStr "3. Retry request with payment proof"] } }

/-- The destructured options of `paymentRequired` (middleware.js lines
124–139), with the source's defaults. `hasVerifier` records whether a
verifier function was supplied; `price`/`currency`/`recipient` are `none`
when absent from the options object. -/
structure GateOptions where
  price : Option Str := none
  currency : Option Str := none
  recipient : Option Str := none
  hasVerifier : Bool := true
  required : Bool := true
  network : Option Str := none
  chainId : Option Nat := none
  facilitatorUrl : Option Str := none
  customInstructions : Option HumanInstructions := none
  headerName : Str := jsStr "x-payment-hash"

/-- The state a successfully constructed gate closure captures. -/
structure Gate where
  price : Str
  currency : Str
  recipient : Str
  required : Bool
  network : Option Str
  chainId : Option Nat
  facilitatorUrl : Option Str
  customInstructions : Option HumanInstructions
  headerName : Str
deriving DecidableEq

/-- `paymentRequired` construction (middleware.js lines 124–147): throws
when no verifier function was supplied or when any of `price`, `currency`,
`recipient` is falsy; otherwise the middleware closure (a `Gate`) exists. -/
def paymentRequired (o : GateOptions) : Except String Gate :=
  if !o.hasVerifier then
    Except.error "x402-express: verifier function is required"
  else if !jsTruthyS o.price || !jsTruthyS o.currency || !jsTruthyS o.recipient then
    Except.error "x402-express: price, currency, and recipient are required"
  else
    Except.ok
      { price := o.price.getD []
        currency := o.currency.getD []
        recipient := o.recipient.getD []
        required := o.required
        network := o.network
        chainId := o.chainId
        facilitatorUrl := o.facilitatorUrl
        customInstructions := o.customInstructions
        headerName := o.headerName }

/-- An inbound request as the middleware reads it: path, method and the
header map (`req.headers[name]`, `undefined` when absent). -/
structure Request where
  path : Str
  method : Str
  headers : Str → Option Str

/-- What the `await verifier(...)` call does, abstracting the verifier
function the gate was constructed with: it resolves to a boolean or it
throws/rejects. -/
inductive VerifierBehavior where
  | returns : Bool → VerifierBehavior
  | throws : VerifierBehavior
deriving DecidableEq

/-- `req.payment` as attached on success (middleware.js lines 240–246); the
wall-clock `timestamp` is outside the model. -/
structure PaymentInfo where
  hash : Str
  amount : Str
  currency : Str
  verified : Bool
deriving DecidableEq

/-- The JSON body of each gate response. -/
inductive ResponseBody where
  /-- middleware.js lines 186–190: 402 "Payment Required" with instructions. -/
  | paymentRequiredBody : PaymentInstructions → ResponseBody
  /-- middleware.js lines 222–236: 402 "Invalid Payment", echoing the
  received hash/amount and the expected amount, currency, recipient,
  network. -/
  | invalidPayment : Str → Option Str → Str → Str → Str → Option Str → ResponseBody
  /-- middleware.js lines 270–274: 500 "Payment Verification Error". -/
  | verificationError : ResponseBody
deriving DecidableEq

/-- What one run of the gate middleware does to the request: answer with a
status and body, or call `next()` (with `req.payment` set on the verified
path). -/
inductive GateResult where
  | respond : Nat → ResponseBody → GateResult
  | proceed : Option PaymentInfo → GateResult
deriving DecidableEq

/-- Status code of a gate run, `none` when it proceeded to the handler. -/
def gateStatus : GateResult → Option Nat
  | GateResult.respond s _ => some s
  | GateResult.proceed _ => none

/-- The middleware closure returned by `paymentRequired` (middleware.js
lines 155–276). The first component records whether the verifier function
was called. Branches in source order: `!required` → `next()`; falsy proof
header → 402 with instructions; verifier throws → 500; verifier returns
false → 402 invalid; verifier returns true → attach `req.payment`,
`next()`. -/
def handleRequest (g : Gate) (req : Request) (vb : VerifierBehavior) :
    Bool × GateResult :=
  if !g.required then
    (false, GateResult.proceed none)
  else
    if !jsTruthyS (req.headers g.headerName) then
      (false, GateResult.respond 402 (ResponseBody.paymentRequiredBody
        (createPaymentInstructions
          { endpoint := req.path
            price := g.price
            currency := g.currency
            recipient := g.recipient
            network := g.network
            chainId := g.chainId
            method := req.method
            facilitatorUrl := g.facilitatorUrl
            customInstructions := g.customInstructions })))
    else
      match vb with
      | VerifierBehavior.throws =>
        (true, GateResult.respond 500 ResponseBody.verificationError)
      | VerifierBehavior.returns false =>
        (true, GateResult.respond 402 (ResponseBody.invalidPayment
          ((req.headers g.headerName).getD [])
          (req.headers (jsStr "x-payment-amount"))
          g.price g.currency g.recipient g.network))
      | VerifierBehavior.returns true =>
        (true, GateResult.proceed (some
          { hash := (req.headers g.headerName).getD []
            amount :=
              if jsTruthyS (req.headers (jsStr "x-payment-amount")) then
                (req.headers (jsStr "x-payment-amount")).getD []
              else g.price
            currency := g.currency
            verified := true }))

/-- The destructured options of `createDemoVerifier`
(src/unnamed/part_006 lines 34–39), with the source's defaults. -/
structure DemoOptions where
  acceptedHashes : List String := ["demo"]
  enabledInProduction : Bool := false

/-- The verifier closure returned by `createDemoVerifier`
(src/unnamed/part_006 lines 47–72), together with the `(message, level)`
pairs it hands to the logger. `nodeEnv` is `process.env.NODE_ENV`. -/
def createDemoVerifier (o : DemoOptions) (nodeEnv : String)
    (paymentHash : String) : Bool × List (String × String) :=
  if nodeEnv == "production" && !o.enabledInProduction then
    (false, [("Demo verifier disabled in production", "error")])
  else
    if o.acceptedHashes.contains paymentHash then
      (true, [("Demo payment accepted", "warn")])
    else
      (false, [("Demo payment rejected", "warn")])

/-- `verifyPayment` of the application middleware
(src/src/middleware/payment.js lines 55–82): the placeholder accepts only
the literal hash "demo" and only when `NODE_ENV` is "development";
everything else falls through to `return false`. -/
def verifyPayment (nodeEnv : String) (paymentHash : String) : Bool :=
  if nodeEnv == "development" && paymentHash == "demo" then true
  else false

/-- Base Sepolia USDC contract address as configured in usdc.js. -/
def sampleContract : Str := jsStr "0x036CbD53842c5426634e7929541eC2318f3dCF7e"

/-- A requirement recipient in mixed (checksum) case. -/
def sampleRecipient : Str := jsStr "0x742d35Cc6634C0532925a3b844Bc454e4438f44e"

/-- `topics[1]`: some sender, left-padded to 32 bytes. -/
def sampleTopicFrom : Str :=
  jsStr "0x0000000000000000000000001111111111111111111111111111111111111111"

/-- `topics[2]`: the sample recipient, lowercase, left-padded to 32 bytes. -/
def sampleTopicTo : Str :=
  jsStr "0x000000000000000000000000742d35cc6634c0532925a3b844bc454e4438f44e"

/-- A qualifying Transfer log paying 10000 smallest units (0.01 USDC). -/
def sampleLog : Log :=
  { address := jsStr "0x036cbd53842c5426634e7929541ec2318f3dcf7e"
    topics := [TRANSFER_EVENT_SIGNATURE, sampleTopicFrom, sampleTopicTo]
    data := jsStr "0x2710" }

/-- A successful receipt holding `sampleLog`. -/
def sampleReceipt : Receipt := { status := 1, logs := [sampleLog] }

/-- Like `sampleLog` but paying 9999 units (0.009999 USDC), exactly
`0.01 − 0.000001`. -/
def sampleLogLow : Log :=
  { address := jsStr "0x036cbd53842c5426634e7929541ec2318f3dcf7e"
    topics := [TRANSFER_EVENT_SIGNATURE, sampleTopicFrom, sampleTopicTo]
    data := jsStr "0x270f" }

/-- A successful receipt holding `sampleLogLow`. -/
def sampleReceiptLow : Receipt := { status := 1, logs := [sampleLogLow] }

/-- A non-qualifying log (wrong emitting contract). -/
def sampleOtherLog : Log :=
  { address := jsStr "0x1111111111111111111111111111111111111111"
    topics := [TRANSFER_EVENT_SIGNATURE, sampleTopicFrom, sampleTopicTo]
    data := jsStr "0x2710" }

/-- A fully configured gate for the Base Sepolia route. -/
def sampleGate : Gate :=
  { price := jsStr "0.01"
    currency := jsStr "USDC"
    recipient := sampleRecipient
    required := true
    network := some (jsStr "base-sepolia")
    chainId := some 84532
    facilitatorUrl := none
    customInstructions := none
    headerName := jsStr "x-payment-hash" }

/-- The options `sampleGate` is constructed from. -/
def sampleGateOptions : GateOptions :=
  { price := some (jsStr "0.01")
    currency := some (jsStr "USDC")
    recipient := some sampleRecipient
    hasVerifier := true
    required := true
    network := some (jsStr "base-sepolia")
    chainId := some 84532 }

/-- A request carrying a payment-proof header. -/
def sampleReqWithHash : Request :=
  { path := jsStr "/api/transactions"
    method := jsStr "GET"
    headers := fun h =>
      if h = jsStr "x-payment-hash" then some (jsStr "0xdeadbeef") else none }

/-- A request with no payment-proof header at all. -/
def sampleReqNoHash : Request :=
  { path := jsStr "/api/transactions"
    method := jsStr "GET"
    headers := fun _ => none }

/-- `sampleGateOptions` with `required := false` (the testing escape hatch). -/
def sampleGateOptionsNotRequired : GateOptions :=
  { sampleGateOptions with required := false }

/-- The gate `paymentRequired` builds from `sampleGateOptionsNotRequired`. -/
def sampleGateNotRequired : Gate :=
  { sampleGate with required := false }

/-- Options with a price but no recipient (incomplete requirement). -/
def sampleGateOptionsNoRecipient : GateOptions :=
  { price := some (jsStr "0.01")
    currency := some (jsStr "USDC")
    recipient := none
    hasVerifier := true }

/-- Fuel-driven floor-log2 helper (the fuel bounds the recursion depth so
concrete values kernel-reduce). -/
def natLog2Aux : Nat → Nat → Nat
  | 0, _ => 0
  | fuel + 1, n => if 2 ≤ n then natLog2Aux fuel (n / 2) + 1 else 0

/-- Floor of log2 on positive naturals (0 at 0). -/
def natLog2 (n : Nat) : Nat := natLog2Aux n n

/-- Rounds the positive rational `a / b` (`a, b ≥ 1`) to the nearest
IEEE-754 binary64 value, ties to even, returned as an exact rational:
the exponent `e` satisfies `2^e ≤ a/b < 2^(e+1)`, the 53-bit significand
is `round_half_even((a/b) / 2^(e-52))`, and the result is
`m * 2^(e-52)`. Valid on the binary64 normal range
(`2^-1022 ≤ a/b < 2^1024`), which covers every magnitude this code path
can produce (token units below 2^256 scaled by 10^-6, prices, tolerances);
subnormals, overflow and NaN are outside the model. -/
def flRoundPos (a b : Nat) : ℚ :=
  let la := natLog2 a
  let lb := natLog2 b
  let ge : Bool :=
    if lb ≤ la then decide (b * 2 ^ (la - lb) ≤ a) else decide (b ≤ a * 2 ^ (lb - la))
  let e : Int := if ge then (la : Int) - (lb : Int) else (la : Int) - (lb : Int) - 1
  let shift : Int := 52 - e
  let n : Nat := if 0 ≤ shift then a * 2 ^ shift.toNat else a
  let d : Nat := if 0 ≤ shift then b else b * 2 ^ (-shift).toNat
  let m0 := n / d
  let r := n % d
  let m : Nat :=
    if 2 * r < d then m0
    else if d < 2 * r then m0 + 1
    else if m0 % 2 = 0 then m0 else m0 + 1
  if 52 ≤ e then mkRat (m * 2 ^ (e - 52).toNat) 1 else mkRat m (2 ^ (52 - e).toNat)

/-- Correct rounding of a rational to the nearest IEEE-754 binary64 value
(round half to even), as an exact rational; `fl(q)` in what follows. -/
def flRound (q : ℚ) : ℚ :=
  if 0 < q.num then flRoundPos q.num.toNat q.den
  else if q.num < 0 then
    mkRat (-(flRoundPos (-q.num).toNat q.den).num) (flRoundPos (-q.num).toNat q.den).den
  else mkRat 0 1

/-- Exact rational subtraction written on numerators/denominators (equal to
`a - b`, see `ratSub_eq`); `Rat.sub` is `@[irreducible]`, this form lets
concrete values kernel-reduce. -/
def ratSub (a b : ℚ) : ℚ :=
  mkRat (a.num * (b.den : Int) - b.num * (a.den : Int)) (a.den * b.den)

/-- Exact division of a rational by a natural, written on the
numerator/denominator for kernel reduction. -/
def ratDiv (a : ℚ) (n : Nat) : ℚ := mkRat a.num (a.den * n)

/-- JS `Number(bigint)`: the BigInt rounded to the nearest double — exact
below 2^53, rounded (ties to even) above. usdc.js line 166 applies this to
`amountInSmallestUnit`. -/
def jsNumberOfNat (n : Nat) : ℚ := flRound (mkRat (n : Int) 1)

/-- usdc.js line 166 in the engine's arithmetic:
`Number(amountInSmallestUnit) / 1e6` — the BigInt is rounded to a double
and the division by the exactly-representable 1e6 is correctly-rounded
double division. -/
def amountInUSDCFl (n : Nat) : ℚ := flRound (ratDiv (jsNumberOfNat n) 1000000)

/-- Double subtraction: `fl(a - b)` for doubles `a`, `b` (usdc.js line 190
computes `expectedAmountNum - tolerance` this way). -/
def flSub (a b : ℚ) : ℚ := flRound (ratSub a b)

/-- `parseFloat` of a decimal numeral: the nearest double to its exact
decimal value `q` (correctly rounded, as ECMA-262 specifies). -/
def parseFloatFl (q : ℚ) : ℚ := flRound q

/-- The double value of the literal `0.000001` — the runtime value of the
default `tolerance` option (usdc.js line 79); it is slightly below the
exact 1/10^6. -/
def usdcToleranceFl : ℚ := flRound (mkRat 1 1000000)

/-- `usdcVerifyOutcome` with the amount comparison taken in IEEE-754
binary64 semantics, as the JS engine actually executes usdc.js lines
163–166 and 190: `Number(amountInSmallestUnit)` rounds the BigInt to a
double, the division by 1e6 rounds again, `expectedAmountNum` (the
`parseFloat` result) and `tolerance` are doubles, and their subtraction
rounds. Every step before the comparison (status check, log selection,
topic slicing, BigInt decoding, case-insensitive recipient comparison) is
exact and identical to `usdcVerifyOutcome`. This is the faithful model of
the program's amount arithmetic. -/
def usdcVerifyOutcomeFl (contractAddress : Str) (tolerance : ℚ) (recipient : Str)
    (expectedAmountNum : ℚ) (chain : ChainResult) : VerifyOutcome :=
  match chain with
  | ChainResult.err _ => VerifyOutcome.errorCaught
  | ChainResult.ok none => VerifyOutcome.notFound
  | ChainResult.ok (some receipt) =>
    if receipt.status ≠ 1 then VerifyOutcome.txFailed
    else
      match findTransferLog contractAddress receipt.logs with
      | none => VerifyOutcome.noTransfer
      | some transferLog =>
        match transferLog.topics[2]? with
        | none => VerifyOutcome.errorCaught
        | some topic2 =>
          match jsBigInt transferLog.data with
          | none => VerifyOutcome.errorCaught
          | some n =>
            if jsToLower (decodeToAddress topic2) ≠ jsToLower recipient then
              VerifyOutcome.wrongRecipient
            else if amountInUSDCFl n < flSub expectedAmountNum tolerance then
              VerifyOutcome.insufficient
            else VerifyOutcome.success

/-- The boolean the verifier returns under the double-semantics model:
`true` exactly on the success return site. -/
def usdcVerifyFl (contractAddress : Str) (tolerance : ℚ) (recipient : Str)
    (expectedAmountNum : ℚ) (chain : ChainResult) : Bool :=
  match usdcVerifyOutcomeFl contractAddress tolerance recipient expectedAmountNum chain with
  | VerifyOutcome.success => true
  | _ => false

/-- Like `sampleLog` but paying 2992 smallest units (data 0x0bb0). -/
def sampleLog2992 : Log :=
  { address := jsStr "0x036cbd53842c5426634e7929541ec2318f3dcf7e"
    topics := [TRANSFER_EVENT_SIGNATURE, sampleTopicFrom, sampleTopicTo]
    data := jsStr "0x0bb0" }

/-- A successful receipt holding `sampleLog2992`. -/
def sampleReceipt2992 : Receipt := { status := 1, logs := [sampleLog2992] }

/-- The verifier closure returns `true` exactly when it reached the success
return site. -/
theorem usdcVerify_eq_true_iff (contractAddress : Str) (tolerance : ℚ)
    (recipient : Str) (expectedAmountNum : ℚ) (chain : ChainResult) :
    usdcVerify contractAddress tolerance recipient expectedAmountNum chain = true ↔
      usdcVerifyOutcome contractAddress tolerance recipient expectedAmountNum chain =
        VerifyOutcome.success := by
  cases h : usdcVerifyOutcome contractAddress tolerance recipient expectedAmountNum chain <;>
    simp [usdcVerify, h]

/-- `List.find?` returns a witness of the predicate that is first: everything
before it in the list fails the predicate. -/
theorem find?_first_split {α : Type} (p : α → Bool) :
    ∀ (l : List α) (a : α), l.find? p = some a →
      p a = true ∧ ∃ pre post, l = pre ++ a :: post ∧ ∀ x ∈ pre, p x = false := by
  intro l
  induction l with
  | nil => intro a h; simp [List.find?] at h
  | cons b t ih =>
    intro a h
    by_cases hb : p b = true
    · rw [List.find?_cons_of_pos _ hb] at h
      cases h
      exact ⟨hb, [], t, rfl, by simp⟩
    · rw [List.find?_cons_of_neg _ (by simpa using hb)] at h
      obtain ⟨hpa, pre, post, hsplit, hpre⟩ := ih a h
      refine ⟨hpa, b :: pre, post, by rw [hsplit]; rfl, ?_⟩
      intro x hx
      rcases List.mem_cons.mp hx with hx | hx
      · subst hx; simpa using hb
      · exact hpre x hx


/-- C10: the application-level `verifyPayment` returns true only when
`NODE_ENV` is exactly "development" and the payment hash is exactly the
literal "demo"; every other input — in particular any genuine on-chain
transaction hash — returns false, so this middleware can never accept a
real payment. -/
theorem verifyPayment_accepts_only_dev_demo (nodeEnv paymentHash : String) :
    verifyPayment nodeEnv paymentHash = true ↔
      nodeEnv = "development" ∧ paymentHash = "demo" := by
  by_cases h1 : nodeEnv = "development" <;>
    by_cases h2 : paymentHash = "demo" <;>
      simp [verifyPayment, h1, h2]

/-- C3 counterexample: a demo verifier constructed with
`enabledInProduction := true` returns true in production for an allow-list
match, so the claim "in production the Demo Verifier returns false for
every proof hash" is false as stated. -/
theorem demo_verifier_production_enabled_cex :
    (createDemoVerifier { acceptedHashes := ["demo"], enabledInProduction := true }
      "production" "demo").1 = true := rfl

/-- C3 (amended): when the demo verifier is constructed with the default
`enabledInProduction = false`, then under `NODE_ENV = "production"` it
returns false for every proof hash — even an exact allow-list match with a
non-empty allow-list — and emits the "Demo verifier disabled in
production" log at error level. -/
theorem demo_verifier_production_lockout (hashes : List String) (h : String) :
    createDemoVerifier { acceptedHashes := hashes, enabledInProduction := false }
      "production" h =
      (false, [("Demo verifier disabled in production", "error")]) := rfl

/-- C8: a gate constructed with `required = false` never calls the verifier
and always proceeds to the protected handler. -/
theorem gate_not_required_skips_verifier (o : GateOptions) (g : Gate)
    (hg : paymentRequired o = Except.ok g) (hreq : o.required = false)
    (req : Request) (vb : VerifierBehavior) :
    handleRequest g req vb = (false, GateResult.proceed none) := by
  have hgr : g.required = false := by
    unfold paymentRequired at hg
    split at hg
    · simp at hg
    · split at hg
      · simp at hg
      · injection hg with h
        rw [← h]
        exact hreq
  simp [handleRequest, hgr]

/-- C8 witness: the sample gate with `required := false` skips the verifier
on a request that even carries a proof header. -/
theorem gate_not_required_skips_verifier_witness :
    handleRequest sampleGateNotRequired sampleReqWithHash
      (VerifierBehavior.returns true) = (false, GateResult.proceed none) :=
  gate_not_required_skips_verifier sampleGateOptionsNotRequired
    sampleGateNotRequired rfl rfl sampleReqWithHash (VerifierBehavior.returns true)

/-- C9: gate construction fails fast when any of price, currency or
recipient is missing from the options: `paymentRequired` yields an error
and no middleware value. -/
theorem gate_construction_fails_on_missing (o : GateOptions)
    (h : o.price = none ∨ o.currency = none ∨ o.recipient = none) :
    ∃ e, paymentRequired o = Except.error e := by
  unfold paymentRequired
  split
  · exact ⟨_, rfl⟩
  · split
    · exact ⟨_, rfl⟩
    · rename_i hcond
      exfalso
      rcases h with h | h | h <;> simp [h, jsTruthyS] at hcond

/-- C9 witness: options missing the recipient are rejected at
construction. -/
theorem gate_construction_fails_on_missing_witness :
    ∃ e, paymentRequired sampleGateOptionsNoRecipient = Except.error e :=
  gate_construction_fails_on_missing sampleGateOptionsNoRecipient
    (Or.inr (Or.inr rfl))

/-- C5: the decoder selects exactly the first log whose emitting address
matches the token contract case-insensitively and whose first topic is the
Transfer signature; every log before the selected one fails the predicate
(so later qualifying logs are ignored); and when no log qualifies the
verifier takes the "no transfer found" outcome. Selection is a pure
function of the log list, hence deterministic. -/
theorem transfer_decoder_first_match (contract : Str) (logs : List Log) :
    (∀ l, findTransferLog contract logs = some l →
        qualifiesTransferLog contract l = true ∧
        ∃ pre post, logs = pre ++ l :: post ∧
          ∀ x ∈ pre, qualifiesTransferLog contract x = false) ∧
    (findTransferLog contract logs = none ↔
        ∀ x ∈ logs, qualifiesTransferLog contract x = false) ∧
    (∀ (tol amt : ℚ) (recipient : Str) (receipt : Receipt),
        receipt.status = 1 → receipt.logs = logs →
        findTransferLog contract logs = none →
        usdcVerifyOutcome contract tol recipient amt (ChainResult.ok (some receipt)) =
          VerifyOutcome.noTransfer) := by
  refine ⟨?_, ?_, ?_⟩
  · intro l h
    exact find?_first_split _ logs l h
  · unfold findTransferLog
    rw [List.find?_eq_none]
    constructor
    · intro h x hx
      exact Bool.not_eq_true _ ▸ (by simpa using h x hx)
    · intro h x hx
      simp [h x hx]
  · intro tol amt recipient receipt hs hl hnone
    simp [usdcVerifyOutcome, hs, hl, hnone]

/-- `ratSub` computes exact rational subtraction (it is the
numerator/denominator formula of `Rat.sub_def'`). -/
theorem ratSub_eq (a b : ℚ) : ratSub a b = a - b :=
  (Rat.sub_def' a b).symm

/-- The double-model verifier returns `true` exactly when it reached the
success return site. -/
theorem usdcVerifyFl_eq_true_iff (contractAddress : Str) (tolerance : ℚ)
    (recipient : Str) (expectedAmountNum : ℚ) (chain : ChainResult) :
    usdcVerifyFl contractAddress tolerance recipient expectedAmountNum chain = true ↔
      usdcVerifyOutcomeFl contractAddress tolerance recipient expectedAmountNum chain =
        VerifyOutcome.success := by
  cases h : usdcVerifyOutcomeFl contractAddress tolerance recipient expectedAmountNum chain <;>
    simp [usdcVerifyFl, h]

/-- Sanity anchor for the rounding model: 0.1 rounds to the well-known
binary64 value 3602879701896397/2^55. -/
theorem flRound_tenth :
    flRound (mkRat 1 10) = mkRat 3602879701896397 36028797018963968 := by decide

/-- Sanity anchor: in-range dyadic rationals are exactly representable. -/
theorem flRound_dyadic : flRound (mkRat 3 4) = mkRat 3 4 := by decide

/-- C2 counterexample: with requirement "0.002993" (whose runtime value is
the parsed double) and the runtime default tolerance, a 2992-unit transfer
is verified by the program's double arithmetic although its exact decoded
amount 2992/10^6 is strictly below the exact value of
`expectedAmountNum − tolerance` — so verified = true does not imply
observedAmount ≥ amount − tolerance. -/
theorem usdc_double_accepts_below_threshold_cex :
    usdcVerifyFl sampleContract usdcToleranceFl sampleRecipient
      (parseFloatFl (mkRat 2993 1000000))
      (ChainResult.ok (some sampleReceipt2992)) = true ∧
    mkRat 2992 1000000 < parseFloatFl (mkRat 2993 1000000) - usdcToleranceFl := by
  constructor
  · decide
  · rw [← ratSub_eq]
    decide

/-- C2 (amended): under the program's IEEE-754 double arithmetic,
verified = true implies the chain query yielded a receipt with a
qualifying transfer log whose decoded recipient equals the requirement's
recipient up to hex-character case — that half of the invariant is exact —
and whose amount passed the double comparison:
`fl(Number(raw)/1e6) ≥ fl(expectedAmountNum − tolerance)`. Because each
rounding can move a value by up to half an ulp, this admits amounts a
sub-ulp margin below the exact `required − tolerance`
(see the counterexample). -/
theorem usdc_verifiedFl_implies_recipient_and_double_amount
    (contract recipient : Str) (tol amt : ℚ) (chain : ChainResult)
    (h : usdcVerifyFl contract tol recipient amt chain = true) :
    ∃ (receipt : Receipt) (transferLog : Log) (topic2 : Str) (n : Nat),
      chain = ChainResult.ok (some receipt) ∧
      findTransferLog contract receipt.logs = some transferLog ∧
      transferLog.topics[2]? = some topic2 ∧
      jsBigInt transferLog.data = some n ∧
      jsToLower (decodeToAddress topic2) = jsToLower recipient ∧
      flSub amt tol ≤ amountInUSDCFl n := by
  rw [usdcVerifyFl_eq_true_iff] at h
  cases chain with
  | err m => simp [usdcVerifyOutcomeFl] at h
  | ok ro =>
    cases ro with
    | none => simp [usdcVerifyOutcomeFl] at h
    | some receipt =>
      by_cases hs : receipt.status = 1
      · cases hf : findTransferLog contract receipt.logs with
        | none => simp [usdcVerifyOutcomeFl, hs, hf] at h
        | some transferLog =>
          cases ht : transferLog.topics[2]? with
          | none => simp [usdcVerifyOutcomeFl, hs, hf, ht] at h
          | some topic2 =>
            cases hn : jsBigInt transferLog.data with
            | none => simp [usdcVerifyOutcomeFl, hs, hf, ht, hn] at h
            | some n =>
              by_cases hr : jsToLower (decodeToAddress topic2) = jsToLower recipient
              · by_cases ha : amountInUSDCFl n < flSub amt tol
                · simp [usdcVerifyOutcomeFl, hs, hf, ht, hn, hr, ha] at h
                · exact ⟨receipt, transferLog, topic2, n, rfl, hf, ht, hn, hr,
                    not_lt.mp ha⟩
              · simp [usdcVerifyOutcomeFl, hs, hf, ht, hn, hr] at h
      · simp [usdcVerifyOutcomeFl, hs] at h

/-- C2 amended witness: a 10000-unit transfer against the double of "0.01"
with the runtime default tolerance verifies, instantiating the
invariant. -/
theorem usdc_verifiedFl_implies_recipient_and_double_amount_witness :
    ∃ (receipt : Receipt) (transferLog : Log) (topic2 : Str) (n : Nat),
      ChainResult.ok (some sampleReceipt) = ChainResult.ok (some receipt) ∧
      findTransferLog sampleContract receipt.logs = some transferLog ∧
      transferLog.topics[2]? = some topic2 ∧
      jsBigInt transferLog.data = some n ∧
      jsToLower (decodeToAddress topic2) = jsToLower sampleRecipient ∧
      flSub (parseFloatFl (mkRat 1 100)) usdcToleranceFl ≤ amountInUSDCFl n :=
  usdc_verifiedFl_implies_recipient_and_double_amount sampleContract sampleRecipient
    usdcToleranceFl (parseFloatFl (mkRat 1 100)) (ChainResult.ok (some sampleReceipt))
    (by decide)

/-- C4: at the spec's own boundary vector — requirement "0.01" (runtime
value: its parsed double), the runtime default tolerance, and a 9999-unit
transfer whose exact amount is exactly `required − tolerance` in exact
decimal arithmetic (second conjunct) — the program's double comparison
takes the InsufficientAmount return site, because `0.009999 < 0.01 -
0.000001` evaluates to true in binary64. The claim (and the spec's
tolerance-boundary property, which the tolerance exists to guarantee) says
this input verifies successfully. -/
theorem usdc_boundary_double_rejects :
    usdcVerifyOutcomeFl sampleContract usdcToleranceFl sampleRecipient
      (parseFloatFl (mkRat 1 100)) (ChainResult.ok (some sampleReceiptLow)) =
      VerifyOutcome.insufficient ∧
    (mkRat 9999 1000000 : ℚ) = mkRat 1 100 - mkRat 1 1000000 := by
  constructor
  · decide
  · rw [← ratSub_eq]
    decide


/-- Dropping `2*k` hex characters corresponds to dropping `k` bytes. -/
theorem hexOfBytes_drop : ∀ (k : Nat) (bs : List Nat),
    (hexOfBytes bs).drop (2 * k) = hexOfBytes (bs.drop k) := by
  intro k
  induction k with
  | zero => intro bs; simp
  | succ k ih =>
    intro bs
    cases bs with
    | nil => simp [hexOfBytes]
    | cons b t =>
      rw [hexOfBytes, show 2 * (k + 1) = 2 * k + 1 + 1 by ring]
      simp only [List.drop_succ_cons]
      exact ih t

/-- `hexDigitVal?` inverts `hexDigitChar` on digit values. -/
theorem hexDigitVal_hexDigitChar : ∀ d, d < 16 →
    hexDigitVal? (hexDigitChar d) = some d := by decide

/-- Folding the hex parser over the hex rendering of a byte string recovers
its big-endian value, for any accumulator. -/
theorem foldl_hexStep_hexOfBytes : ∀ (bs : List Nat), (∀ b ∈ bs, b < 256) →
    ∀ (acc : Nat), List.foldl hexStep (some acc) (hexOfBytes bs) =
      some (List.foldl (fun a b => 256 * a + b) acc bs) := by
  intro bs
  induction bs with
  | nil => intro _ acc; rfl
  | cons b t ih =>
    intro hb acc
    have hblt : b < 256 := hb b (List.mem_cons_self b t)
    rw [hexOfBytes]
    simp only [List.foldl_cons]
    rw [show hexStep (some acc) (hexDigitChar (b / 16)) = some (16 * acc + b / 16) by
      simp [hexStep, hexDigitVal_hexDigitChar _ (by omega : b / 16 < 16)]]
    rw [show hexStep (some (16 * acc + b / 16)) (hexDigitChar (b % 16)) =
        some (16 * (16 * acc + b / 16) + b % 16) by
      simp [hexStep, hexDigitVal_hexDigitChar _ (by omega : b % 16 < 16)]]
    rw [show 16 * (16 * acc + b / 16) + b % 16 = 256 * acc + b by omega]
    exact ih (fun x hx => hb x (List.mem_cons_of_mem b hx)) (256 * acc + b)

/-- `BigInt` on a `0x`-prefixed hex rendering of a non-empty byte string
yields its big-endian value. -/
theorem jsBigInt_hexOfBytes (ds : List Nat) (hne : ds ≠ [])
    (hb : ∀ b ∈ ds, b < 256) :
    jsBigInt (jsStr "0x" ++ hexOfBytes ds) = some (beBytesToNat ds) := by
  cases ds with
  | nil => exact absurd rfl hne
  | cons d t =>
    have happ : jsStr "0x" ++ hexOfBytes (d :: t) =
        '0' :: 'x' :: hexOfBytes (d :: t) := rfl
    rw [happ]
    have hc : (('0' : Char) :: 'x' :: hexOfBytes (d :: t)).take 2 = jsStr "0x" := rfl
    have hd : (('0' : Char) :: 'x' :: hexOfBytes (d :: t)).drop 2 = hexOfBytes (d :: t) := rfl
    have hne2 : hexOfBytes (d :: t) ≠ [] := by rw [hexOfBytes]; simp
    unfold jsBigInt
    rw [hc, hd]
    rw [if_pos (Or.inl rfl)]
    rw [if_neg hne2]
    unfold parseHexDigits beBytesToNat
    exact foldl_hexStep_hexOfBytes (d :: t) hb 0

/-- C6: for a qualifying transfer log whose third topic is the 32-byte
right-padded hex rendering of an address, the decoded recipient
(`'0x' + topics[2].slice(26)`) is exactly the low 20 bytes of that topic;
the data payload parses as a big-endian unsigned integer; and the
human-unit amount is that integer divided by 10^6 (6-decimal USDC). -/
theorem usdc_decode_topic_and_amount (tobs ds : List Nat)
    (h32 : tobs.length = 32) (hds : ds ≠ []) (hdb : ∀ b ∈ ds, b < 256) :
    decodeToAddress (jsStr "0x" ++ hexOfBytes tobs) =
      jsStr "0x" ++ hexOfBytes (tobs.drop 12) ∧
    (tobs.drop 12).length = 20 ∧
    jsBigInt (jsStr "0x" ++ hexOfBytes ds) = some (beBytesToNat ds) ∧
    amountInUSDC (beBytesToNat ds) = (beBytesToNat ds : ℚ) / 10 ^ 6 := by
  refine ⟨?_, ?_, jsBigInt_hexOfBytes ds hds hdb, ?_⟩
  · unfold decodeToAddress
    have htail : (jsStr "0x" ++ hexOfBytes tobs).drop 26 = hexOfBytes (tobs.drop 12) := by
      rw [show (jsStr "0x" ++ hexOfBytes tobs).drop 26 = (hexOfBytes tobs).drop 24 from rfl]
      rw [show (24 : Nat) = 2 * 12 from rfl, hexOfBytes_drop]
    rw [htail]
  · rw [List.length_drop, h32]
  · unfold amountInUSDC
    norm_num

/-- C6 witness: a 32-byte topic of 12 zero bytes then 20 bytes 0x11, and
the 2-byte payload 0x2710 (= 10000). -/
theorem usdc_decode_topic_and_amount_witness :
    decodeToAddress (jsStr "0x" ++ hexOfBytes (List.replicate 12 0 ++ List.replicate 20 17)) =
      jsStr "0x" ++ hexOfBytes ((List.replicate 12 0 ++ List.replicate 20 17).drop 12) ∧
    ((List.replicate 12 0 ++ List.replicate 20 17).drop 12).length = 20 ∧
    jsBigInt (jsStr "0x" ++ hexOfBytes [39, 16]) = some (beBytesToNat [39, 16]) ∧
    amountInUSDC (beBytesToNat [39, 16]) = (beBytesToNat [39, 16] : ℚ) / 10 ^ 6 :=
  usdc_decode_topic_and_amount (List.replicate 12 0 ++ List.replicate 20 17) [39, 16]
    (by decide) (by decide) (by decide)

/-- C7: on a request whose proof header is absent or empty, a gate with
`required = true` responds 402 with the x402 instructions block carrying
the route's configured recipient, price, currency and (when configured
truthy) network and chainId, plus the endpoint/method and — absent custom
instructions — the three generated human-readable steps; the verifier is
not called and the protected handler is never invoked (the result is a
response, not a `proceed`). -/
theorem gate_no_proof_header_402 (g : Gate) (req : Request) (vb : VerifierBehavior)
    (hreq : g.required = true)
    (hh : jsTruthyS (req.headers g.headerName) = false) :
    (handleRequest g req vb).1 = false ∧
    ∃ instr : PaymentInstructions,
      (handleRequest g req vb).2 =
        GateResult.respond 402 (ResponseBody.paymentRequiredBody instr) ∧
      instr.payment.recipient = g.recipient ∧
      instr.payment.amount = g.price ∧
      instr.payment.currency = g.currency ∧
      instr.payment.network = (if jsTruthyS g.network then g.network else none) ∧
      instr.payment.chainId = (if jsTruthyNat g.chainId then g.chainId else none) ∧
      instr.resource.endpoint = req.path ∧
      instr.resource.method = req.method ∧
      (g.customInstructions = none → instr.instructions.steps.length = 3) := by
  constructor
  · simp [handleRequest, hreq, hh]
  · refine ⟨createPaymentInstructions
      { endpoint := req.path
        price := g.price
        currency := g.currency
        recipient := g.recipient
        network := g.network
        chainId := g.chainId
        method := req.method
        facilitatorUrl := g.facilitatorUrl
        customInstructions := g.customInstructions },
      ?_, rfl, rfl, rfl, rfl, rfl, rfl, rfl, ?_⟩
    · simp [handleRequest, hreq, hh]
    · intro hci
      simp [createPaymentInstructions, hci]

/-- C7 witness: the sample gate on a request with no proof header responds
402 with the configured requirement, without invoking the verifier. -/
theorem gate_no_proof_header_402_witness :
    (handleRequest sampleGate sampleReqNoHash (VerifierBehavior.returns true)).1 = false ∧
    ∃ instr : PaymentInstructions,
      (handleRequest sampleGate sampleReqNoHash (VerifierBehavior.returns true)).2 =
        GateResult.respond 402 (ResponseBody.paymentRequiredBody instr) ∧
      instr.payment.recipient = sampleGate.recipient ∧
      instr.payment.amount = sampleGate.price ∧
      instr.payment.currency = sampleGate.currency ∧
      instr.payment.network =
        (if jsTruthyS sampleGate.network then sampleGate.network else none) ∧
      instr.payment.chainId =
        (if jsTruthyNat sampleGate.chainId then sampleGate.chainId else none) ∧
      instr.resource.endpoint = sampleReqNoHash.path ∧
      instr.resource.method = sampleReqNoHash.method ∧
      (sampleGate.customInstructions = none → instr.instructions.steps.length = 3) :=
  gate_no_proof_header_402 sampleGate sampleReqNoHash
    (VerifierBehavior.returns true) rfl rfl

/-- C1 counterexample: when the chain query raises a transport error
("timeout"), the USDC verifier returns verified = false — not a distinct
retryable/operational error — and the gate composed with it answers 402
(Invalid Payment), not a 5xx. -/
theorem usdc_chain_error_402_cex :
    usdcVerify sampleContract usdcDefaultTolerance sampleRecipient (1 / 100)
      (ChainResult.err (jsStr "timeout")) = false ∧
    gateStatus ((handleRequest sampleGate sampleReqWithHash
      (VerifierBehavior.returns (usdcVerify sampleContract usdcDefaultTolerance
        sampleRecipient (1 / 100) (ChainResult.err (jsStr "timeout"))))).2) =
      some 402 := by
  exact ⟨rfl, rfl⟩

/-- C1 (amended): a transport/network failure of the chain query makes the
USDC verifier land in its catch-all and return verified = false — the same
boolean verdict as a definitively invalid payment — so the gate responds
402 Invalid Payment; the gate's 500 response occurs only in the separate
case that the verifier function itself throws. -/
theorem usdc_chain_error_collapses_to_402 (contract recipient msg : Str)
    (tol amt : ℚ) (g : Gate) (req : Request)
    (hreq : g.required = true)
    (hh : jsTruthyS (req.headers g.headerName) = true) :
    usdcVerifyOutcome contract tol recipient amt (ChainResult.err msg) =
      VerifyOutcome.errorCaught ∧
    usdcVerify contract tol recipient amt (ChainResult.err msg) = false ∧
    gateStatus ((handleRequest g req (VerifierBehavior.returns
      (usdcVerify contract tol recipient amt (ChainResult.err msg)))).2) = some 402 ∧
    gateStatus ((handleRequest g req VerifierBehavior.throws).2) = some 500 := by
  have hv : usdcVerify contract tol recipient amt (ChainResult.err msg) = false := rfl
  refine ⟨rfl, hv, ?_, ?_⟩
  · rw [hv]
    simp [handleRequest, hreq, hh, gateStatus]
  · simp [handleRequest, hreq, hh, gateStatus]

/-- C1 amended witness: concrete gate, request with a proof header, and a
"timeout" chain error. -/
theorem usdc_chain_error_collapses_to_402_witness :
    usdcVerifyOutcome sampleContract usdcDefaultTolerance sampleRecipient (1 / 100)
      (ChainResult.err (jsStr "rpc timeout")) = VerifyOutcome.errorCaught ∧
    usdcVerify sampleContract usdcDefaultTolerance sampleRecipient (1 / 100)
      (ChainResult.err (jsStr "rpc timeout")) = false ∧
    gateStatus ((handleRequest sampleGate sampleReqWithHash (VerifierBehavior.returns
      (usdcVerify sampleContract usdcDefaultTolerance sampleRecipient (1 / 100)
        (ChainResult.err (jsStr "rpc timeout"))))).2) = some 402 ∧
    gateStatus ((handleRequest sampleGate sampleReqWithHash
      VerifierBehavior.throws).2) = some 500 :=
  usdc_chain_error_collapses_to_402 sampleContract sampleRecipient
    (jsStr "rpc timeout") usdcDefaultTolerance (1 / 100) sampleGate
    sampleReqWithHash rfl rfl
